import Mathlib

/-!
Shallow embedding of the orchestration core of the Nexus Tutor multi-agent
application (React/TypeScript).  The embedded functions are `determineNextAgent`,
`runStep`, `startSession` and `handleHumanSubmit` from the `App` component,
together with the `SharedState` record from `types.ts` and the output
normalisation of `callAgent` from `services/geminiService.ts`.  The external
inference service (Gemini) is modelled as a per-call outcome (rejection, or a
resolved `response.text`), and `JSON.parse` of the Quality-Reviewer judgment is
modelled as an externally supplied `Option Review`.
-/

/-- Agent enumeration, mirroring `enum Agent` in `types.ts`. -/
inductive Agent where
  | SUPERVISOR
  | CURRICULUM_PLANNER
  | CONCEPT_EXPLAINER
  | QUIZ_GENERATOR
  | FEEDBACK_ANALYZER
  | MOTIVATOR
  | QUALITY_REVIEWER
  | HUMAN_APPROVAL
  | END
  deriving DecidableEq, Repr

/-- String value of each `Agent` enum member, as declared in `types.ts`. -/
def agentName : Agent → String
  | .SUPERVISOR => "SUPERVISOR"
  | .CURRICULUM_PLANNER => "CURRICULUM_PLANNER"
  | .CONCEPT_EXPLAINER => "CONCEPT_EXPLAINER"
  | .QUIZ_GENERATOR => "QUIZ_GENERATOR"
  | .FEEDBACK_ANALYZER => "FEEDBACK_ANALYZER"
  | .MOTIVATOR => "MOTIVATOR"
  | .QUALITY_REVIEWER => "QUALITY_REVIEWER"
  | .HUMAN_APPROVAL => "HUMAN_APPROVAL"
  | .END => "END"

/-- Session state record, mirroring `interface SharedState` in `types.ts`.
Fields of TypeScript type `string | null` and `boolean | null` become
`Option String` and `Option Bool`; the numeric `confidence` becomes `ℚ`. -/
structure SharedState where
  topic : String
  difficulty : String
  lessonPlan : Option String
  explanation : Option String
  quiz : Option String
  studentAnswers : Option String
  feedback : Option String
  motivatorMessage : Option String
  reviewerApproved : Option Bool
  reviewerComments : Option String
  confidence : ℚ
  turnCount : Nat
  maxTurns : Nat
  deriving DecidableEq, Repr

/-- The `INITIAL_STATE` constant of `App`. -/
def INITIAL_STATE : SharedState :=
  { topic := ""
    difficulty := "Beginner"
    lessonPlan := none
    explanation := none
    quiz := none
    studentAnswers := none
    feedback := none
    motivatorMessage := none
    reviewerApproved := none
    reviewerComments := none
    confidence := 0
    turnCount := 0
    maxTurns := 15 }

/-- JavaScript truthiness of a `string | null` value: `null` and the empty
string are falsy, every other string is truthy.  The selector and the human
gate test fields with `!s.field`, which is this notion, not `=== null`. -/
def truthy : Option String → Bool
  | none => false
  | some t => !(t == "")

/-- Log entry categories, mirroring `LogEntry.type` in `types.ts`. -/
inductive LogType where
  | decision
  | output
  | error
  | status
  deriving DecidableEq, Repr

/-- Activity log entry.  The `id` (a `Math.random` tag) and `timestamp`
(`new Date()`) of the TypeScript `LogEntry` are external nondeterminism used
only for display, and are omitted from the embedding. -/
structure LogEntry where
  agent : Agent
  content : String
  type : LogType
  reason : Option String
  deriving DecidableEq, Repr

/-- Log entry `addLog(targetAgent, "Agent ... starting...", 'status')` emitted
at the top of `runStep`. -/
def startingLog (a : Agent) : LogEntry :=
  ⟨a, "Agent " ++ agentName a ++ " starting...", .status, none⟩

/-- Log entry `addLog(targetAgent, "Execution failed.", 'error')` emitted in
the `catch` branch of `runStep`. -/
def errorLog (a : Agent) : LogEntry :=
  ⟨a, "Execution failed.", .error, none⟩

/-- Log entry `addLog(targetAgent, output, 'output')` emitted after the state
update switch of `runStep`. -/
def outputLog (a : Agent) (output : String) : LogEntry :=
  ⟨a, output, .output, none⟩

/-- Log entry emitted by `runStep` when the next decision is `HUMAN_APPROVAL`. -/
def awaitLog : LogEntry :=
  ⟨.SUPERVISOR, "Awaiting human intervention.", .decision,
    some "Human input required for student answers or system adjustment."⟩

/-- Log entry emitted by `runStep` when the next decision is `END`. -/
def endLog : LogEntry :=
  ⟨.END, "Learning objective reached or max turns exceeded.", .status, none⟩

/-- Log entry emitted by `startSession`. -/
def initLog (topicInput difficultyInput : String) : LogEntry :=
  ⟨.SUPERVISOR, "Initializing session for: " ++ topicInput ++ " (" ++ difficultyInput ++ ")",
    .status, none⟩

/-- The next-agent selector `determineNextAgent` of `App`, transcribed rule by
rule.  Tests of `string | null` fields use JavaScript truthiness (`truthy`),
`s.reviewerApproved === null` becomes `= none`, the truthiness test of the
`boolean | null` field `s.reviewerApproved` becomes `s.reviewerApproved.getD
false = true`, and the literal `0.8` becomes `(8 : ℚ) / 10`. -/
def determineNextAgent (s : SharedState) : Agent :=
  if s.maxTurns ≤ s.turnCount then Agent.END
  else if truthy s.lessonPlan = false then Agent.CURRICULUM_PLANNER
  else if truthy s.explanation = false then Agent.CONCEPT_EXPLAINER
  else if truthy s.quiz = false then Agent.QUIZ_GENERATOR
  else if truthy s.quiz = true ∧ truthy s.studentAnswers = false then Agent.HUMAN_APPROVAL
  else if truthy s.studentAnswers = true ∧ truthy s.feedback = false then Agent.FEEDBACK_ANALYZER
  else if truthy s.feedback = true ∧ truthy s.motivatorMessage = false then Agent.MOTIVATOR
  else if truthy s.motivatorMessage = true ∧ s.reviewerApproved = none then Agent.QUALITY_REVIEWER
  else if s.reviewerApproved.getD false = true ∧ (8 : ℚ) / 10 ≤ s.confidence then Agent.END
  else if s.reviewerApproved = some false then Agent.HUMAN_APPROVAL
  else Agent.END

/-- Parsed Quality-Reviewer judgment: the JSON object
`\x7b approved, comments, confidence \x7d` required by the reviewer contract. -/
structure Review where
  approved : Bool
  comments : String
  confidence : ℚ
  deriving DecidableEq, Repr

/-- Outcome of one Invoker call (`callAgent`), supplied by the environment:
either the promise rejects (`fail`), or it resolves with `response.text`
(`ok`).  The `parsedReview` component models the result of `JSON.parse` on the
agent's output — `none` when parsing throws — and is consulted only for the
Quality-Reviewer. -/
inductive StepOutcome where
  | fail
  | ok (responseText : String) (parsedReview : Option Review)
  deriving DecidableEq, Repr

/-- Output normalisation of `callAgent` in `services/geminiService.ts`:
`return response.text || "No response generated."`. -/
def callAgentResult (responseText : String) : String :=
  if responseText == "" then "No response generated." else responseText

/-- The state-update `switch (targetAgent)` of `runStep`, together with the
preceding `turnCount` increment.  Returns `none` exactly when the
Quality-Reviewer branch's `JSON.parse` throws (modelled by `parsedReview =
none`), in which case `runStep` falls into its `catch` branch before `setState`
runs.  Agents without a `case` (SUPERVISOR, HUMAN_APPROVAL, END) fall through
with only the `turnCount` increment. -/
def applyAgentOutput (targetAgent : Agent) (output : String) (parsedReview : Option Review)
    (s : SharedState) : Option SharedState :=
  let u := { s with turnCount := s.turnCount + 1 }
  match targetAgent with
  | .CURRICULUM_PLANNER => some { u with lessonPlan := some output }
  | .CONCEPT_EXPLAINER => some { u with explanation := some output }
  | .QUIZ_GENERATOR => some { u with quiz := some output }
  | .FEEDBACK_ANALYZER => some { u with feedback := some output }
  | .MOTIVATOR => some { u with motivatorMessage := some output }
  | .QUALITY_REVIEWER =>
      match parsedReview with
      | none => none
      | some r =>
          some { u with reviewerApproved := some r.approved
                        reviewerComments := some r.comments
                        confidence := r.confidence }
  | _ => some u

/-- Observable configuration of the `App` component between events: the shared
session state, the activity log, and the `showHumanPrompt` pending-input
indicator.  (`isProcessing` and `currentStep` are set and cleared within each
turn and are always back to idle between events, so they are omitted.) -/
structure Config where
  state : SharedState
  logs : List LogEntry
  showHumanPrompt : Bool
  deriving DecidableEq, Repr

/-- The `runStep` function of `App`, including its automatic continuation: on
success it re-evaluates the selector and, unless the decision is
`HUMAN_APPROVAL` or `END`, schedules itself on the next agent (the `setTimeout`
pacing delay is semantically a direct recursive call).  The environment
provides one `StepOutcome` per Invoker call; an empty outcome list models an
Invoker call that never settles, leaving the configuration as it stands after
the starting `status` log. -/
def runStep : Agent → SharedState → List LogEntry → Bool → List StepOutcome → Config
  | a, s, logs, p, [] => ⟨s, logs ++ [startingLog a], p⟩
  | a, s, logs, p, .fail :: _ => ⟨s, logs ++ [startingLog a, errorLog a], p⟩
  | a, s, logs, p, .ok t pr :: rest =>
      let output := callAgentResult t
      match applyAgentOutput a output pr s with
      | none => ⟨s, logs ++ [startingLog a, errorLog a], p⟩
      | some u =>
          let logs2 := logs ++ [startingLog a, outputLog a output]
          let next := determineNextAgent u
          if next = Agent.HUMAN_APPROVAL then ⟨u, logs2 ++ [awaitLog], true⟩
          else if next ≠ Agent.END then runStep next u logs2 p rest
          else ⟨u, logs2 ++ [endLog], p⟩

/-- The state written by `handleHumanSubmit` before it resumes the loop: when
the student-answer condition `state.quiz && !state.studentAnswers` holds, the
human input is written into `studentAnswers`; otherwise the state is left as
is (the supervisor branch only logs). -/
def humanUpdatedState (s : SharedState) (text : String) : SharedState :=
  if truthy s.quiz && !truthy s.studentAnswers then { s with studentAnswers := some text }
  else s

/-- The log entry appended by `handleHumanSubmit`, on the same branch
condition as `humanUpdatedState`. -/
def humanSubmitLog (s : SharedState) (text : String) : LogEntry :=
  if truthy s.quiz && !truthy s.studentAnswers then
    ⟨.HUMAN_APPROVAL, "Student Answer: " ++ text, .output, none⟩
  else
    ⟨.HUMAN_APPROVAL, "Human feedback: " ++ text, .output, none⟩

/-- The `handleHumanSubmit` function of `App`: after the `if (!humanInput)
return` guard it clears `showHumanPrompt`, routes the input, logs it, and
resumes the loop by passing the selector's decision on the updated state to
`runStep` unconditionally. -/
def handleHumanSubmit (c : Config) (humanInput : String) (os : List StepOutcome) : Config :=
  if humanInput == "" then c
  else
    let u := humanUpdatedState c.state humanInput
    runStep (determineNextAgent u) u (c.logs ++ [humanSubmitLog c.state humanInput]) false os

/-- The user-level submit event.  The `SUBMIT` button and its `onClick =
handleHumanSubmit` handler are rendered only inside the
`showHumanPrompt && (...)` conditional block of `App`, so while the
pending-input indicator is off the submit event has no effect on the
configuration. -/
def submitHumanInput (c : Config) (text : String) (os : List StepOutcome) : Config :=
  if c.showHumanPrompt then handleHumanSubmit c text os else c

/-- The `startSession` function of `App`: guarded by `if (!topicInput)
return`, it builds a fresh state from `INITIAL_STATE`, replaces the log with
the initialization entry, and starts the loop on the Curriculum-Planner.
`showHumanPrompt` is not reset by `startSession` and carries over. -/
def startSession (c : Config) (topicInput difficultyInput : String)
    (os : List StepOutcome) : Config :=
  if topicInput == "" then c
  else
    runStep Agent.CURRICULUM_PLANNER
      { INITIAL_STATE with topic := topicInput, difficulty := difficultyInput }
      [initLog topicInput difficultyInput] c.showHumanPrompt os

/-- Context hint of the human-intervention prompt, from the JSX of `App`:
`state.quiz && !state.studentAnswers ? <student prompt> : <supervisor prompt>`. -/
def studentHint : String :=
  "You are currently the STUDENT. Please answer the quiz questions generated by the AI."

/-- Supervisor-side context hint of the human-intervention prompt. -/
def supervisorHint : String :=
  "The system requires review. Provide feedback or override instructions."

/-- The context hint displayed with the pending-input prompt. -/
def humanPromptHint (s : SharedState) : String :=
  if truthy s.quiz && !truthy s.studentAnswers then studentHint else supervisorHint

/-- Events a user can trigger on the quiescent application: starting a session
and submitting human input.  Each event carries the Invoker outcomes its
automatic chain consumes. -/
inductive Event where
  | start (topicInput difficultyInput : String) (os : List StepOutcome)
  | submit (text : String) (os : List StepOutcome)

/-- Effect of one user event on a quiescent configuration. -/
def applyEvent (c : Config) : Event → Config
  | .start ti di os => startSession c ti di os
  | .submit t os => submitHumanInput c t os

/-- The configuration the `App` component mounts with. -/
def initConfig : Config := ⟨INITIAL_STATE, [], false⟩

/-- Configurations reachable from a fresh mount via user events (each event
running its automatic chain to quiescence). -/
inductive Reachable : Config → Prop
  | init : Reachable initConfig
  | step {c : Config} (e : Event) : Reachable c → Reachable (applyEvent c e)

/-- Concrete state used as a witness: every artifact produced, reviewer
approved with confidence 0.5 — the scenario of end-to-end scenario 4. -/
def lowConfidenceState : SharedState :=
  { topic := "Photosynthesis"
    difficulty := "Beginner"
    lessonPlan := some "plan"
    explanation := some "explanation"
    quiz := some "quiz"
    studentAnswers := some "answers"
    feedback := some "feedback"
    motivatorMessage := some "message"
    reviewerApproved := some true
    reviewerComments := some "solid but could be deeper"
    confidence := (1 : ℚ) / 2
    turnCount := 8
    maxTurns := 15 }

/-- Concrete state past the turn cap, with fields that would otherwise route
to the supervisor, witnessing that rule 1 takes priority. -/
def overTurnState : SharedState :=
  { lowConfidenceState with reviewerApproved := some false, confidence := 0, turnCount := 20 }

/-- Concrete state with plan, explanation and quiz produced and no student
answers yet: the student-side suspension point. -/
def awaitStudentState : SharedState :=
  { INITIAL_STATE with
      topic := "Photosynthesis"
      lessonPlan := some "plan"
      explanation := some "explanation"
      quiz := some "quiz"
      turnCount := 3 }

/-- Concrete state where the reviewer rejected the session: the
supervisor-side suspension point. -/
def awaitSupervisorState : SharedState :=
  { lowConfidenceState with reviewerApproved := some false, confidence := 0, turnCount := 7 }

/-- Suspended configuration at the supervisor gate. -/
def supervisorConfig : Config := ⟨awaitSupervisorState, [], true⟩

/-- Concrete state with feedback already present while student answers are
still unset: a counterexample input for the post-submit routing of C7. -/
def feedbackEarlyState : SharedState :=
  { INITIAL_STATE with
      topic := "Photosynthesis"
      lessonPlan := some "plan"
      explanation := some "explanation"
      quiz := some "quiz"
      feedback := some "feedback"
      turnCount := 4 }

/-- Concrete state after a successful Curriculum-Planner turn, used for the
Concept-Explainer failure scenario. -/
def afterPlanState : SharedState :=
  { INITIAL_STATE with topic := "Photosynthesis", lessonPlan := some "plan", turnCount := 1 }

/-- Safety property of a quiescent configuration: the turn counter never
exceeds the cap, and while suspended for human input it is strictly below the
cap (the selector only returns `AWAIT_HUMAN` before the cap). -/
def ConfigInv (c : Config) : Prop :=
  c.state.turnCount ≤ c.state.maxTurns ∧
  (c.showHumanPrompt = true → c.state.turnCount < c.state.maxTurns)

/-- State after one successful Curriculum-Planner turn of a fresh session. -/
def stage1 (ti di t1 : String) : SharedState :=
  { INITIAL_STATE with
      topic := ti
      difficulty := di
      lessonPlan := some (callAgentResult t1)
      turnCount := 1 }

/-- State after successful Curriculum-Planner and Concept-Explainer turns. -/
def stage2 (ti di t1 t2 : String) : SharedState :=
  { stage1 ti di t1 with explanation := some (callAgentResult t2), turnCount := 2 }

/-- State after the first three successful producing turns of a fresh
session; here the chain suspends for the student. -/
def stage3 (ti di t1 t2 t3 : String) : SharedState :=
  { stage2 ti di t1 t2 with quiz := some (callAgentResult t3), turnCount := 3 }

/-- State after a successful Curriculum-Planner turn on `INITIAL_STATE`. -/
def planStep : SharedState :=
  { INITIAL_STATE with lessonPlan := some "plan", turnCount := 1 }

/-- A nonempty string is truthy. -/
theorem truthy_some {t : String} (h : t ≠ "") : truthy (some t) = true := by
  simp [truthy, h]

/-- The normalised output of `callAgent` is never the empty string. -/
theorem callAgentResult_ne (t : String) : callAgentResult t ≠ "" := by
  unfold callAgentResult
  split
  · decide
  · rename_i h
    simpa using h

/-- Truthiness of a produced agent output. -/
theorem truthy_callAgentResult (t : String) : truthy (some (callAgentResult t)) = true :=
  truthy_some (callAgentResult_ne t)

/-- Selector rule 5: quiz present, answers missing, earlier artifacts present. -/
theorem determineNextAgent_student (s : SharedState) (hT : s.turnCount < s.maxTurns)
    (hlp : truthy s.lessonPlan = true) (hex : truthy s.explanation = true)
    (hq : truthy s.quiz = true) (hans : truthy s.studentAnswers = false) :
    determineNextAgent s = Agent.HUMAN_APPROVAL := by
  unfold determineNextAgent
  rw [if_neg (by omega), if_neg (by simp [hlp]), if_neg (by simp [hex]), if_neg (by simp [hq]),
      if_pos ⟨hq, hans⟩]

/-- Selector rule 6: answers present, feedback missing. -/
theorem determineNextAgent_feedback (s : SharedState) (hT : s.turnCount < s.maxTurns)
    (hlp : truthy s.lessonPlan = true) (hex : truthy s.explanation = true)
    (hq : truthy s.quiz = true) (hans : truthy s.studentAnswers = true)
    (hf : truthy s.feedback = false) :
    determineNextAgent s = Agent.FEEDBACK_ANALYZER := by
  unfold determineNextAgent
  rw [if_neg (by omega), if_neg (by simp [hlp]), if_neg (by simp [hex]), if_neg (by simp [hq]),
      if_neg (by simp [hans]), if_pos ⟨hans, hf⟩]

/-- Selector rule 10: reviewer returned a false verdict. -/
theorem determineNextAgent_supervisor (s : SharedState) (hT : s.turnCount < s.maxTurns)
    (hlp : truthy s.lessonPlan = true) (hex : truthy s.explanation = true)
    (hq : truthy s.quiz = true) (hans : truthy s.studentAnswers = true)
    (hf : truthy s.feedback = true) (hm : truthy s.motivatorMessage = true)
    (hap : s.reviewerApproved = some false) :
    determineNextAgent s = Agent.HUMAN_APPROVAL := by
  unfold determineNextAgent
  rw [if_neg (by omega), if_neg (by simp [hlp]), if_neg (by simp [hex]), if_neg (by simp [hq]),
      if_neg (by simp [hans]), if_neg (by simp [hf]), if_neg (by simp [hm]),
      if_neg (by simp [hap]), if_neg (by simp [hap]), if_pos hap]

/-- Claim C1: with every artifact present, a true reviewer verdict and
confidence below 0.8, and the turn cap not reached, the selector falls through
rules 1-10 to the `TERMINATE` fallback (rule 11) and returns `END`. -/
theorem claim_C1 (s : SharedState) (hT : s.turnCount < s.maxTurns)
    (hlp : truthy s.lessonPlan = true) (hex : truthy s.explanation = true)
    (hq : truthy s.quiz = true) (hans : truthy s.studentAnswers = true)
    (hf : truthy s.feedback = true) (hm : truthy s.motivatorMessage = true)
    (hap : s.reviewerApproved = some true) (hc : s.confidence < (8 : ℚ) / 10) :
    determineNextAgent s = Agent.END := by
  unfold determineNextAgent
  rw [if_neg (by omega), if_neg (by simp [hlp]), if_neg (by simp [hex]), if_neg (by simp [hq]),
      if_neg (by simp [hans]), if_neg (by simp [hf]), if_neg (by simp [hm]),
      if_neg (by simp [hap]), if_neg (by simp [hap, not_le, hc]), if_neg (by simp [hap])]

/-- Witness for C1 at the state of end-to-end scenario 4: reviewer approved
with confidence 0.5, and the selector returns `END`. -/
theorem claim_C1_witness :
    lowConfidenceState.reviewerApproved = some true ∧
    lowConfidenceState.confidence = (1 : ℚ) / 2 ∧
    lowConfidenceState.confidence < (8 : ℚ) / 10 ∧
    determineNextAgent lowConfidenceState = Agent.END :=
  ⟨rfl, rfl, by norm_num [lowConfidenceState],
    claim_C1 lowConfidenceState (by decide) (by decide) (by decide) (by decide) (by decide)
      (by decide) (by decide) rfl (by norm_num [lowConfidenceState])⟩

/-- Claim C2: once `turnCount` has reached `maxTurns`, the selector returns
`END` regardless of every other field (rule 1, evaluated first). -/
theorem claim_C2 (s : SharedState) (h : s.maxTurns ≤ s.turnCount) :
    determineNextAgent s = Agent.END := by
  unfold determineNextAgent
  rw [if_pos h]

/-- Witness for C2 at a state past the cap whose other fields would route to
the supervisor. -/
theorem claim_C2_witness :
    overTurnState.maxTurns ≤ overTurnState.turnCount ∧
    overTurnState.reviewerApproved = some false ∧
    determineNextAgent overTurnState = Agent.END :=
  ⟨by decide, rfl, claim_C2 overTurnState (by decide)⟩

/-- Claim C4: when the Invoker call of a turn fails — rejection, or
unparseable JSON from the Quality-Reviewer — `runStep` appends an `error` log
entry, leaves the session state entirely unchanged (no field written, no
`turnCount` increment), and the selector re-evaluated on that state returns
the same agent again. -/
theorem claim_C4 (a : Agent) (s : SharedState) (logs : List LogEntry) (p : Bool) :
    runStep a s logs p [StepOutcome.fail] = ⟨s, logs ++ [startingLog a, errorLog a], p⟩ ∧
    (runStep a s logs p [StepOutcome.fail]).state = s ∧
    (∀ t : String, runStep Agent.QUALITY_REVIEWER s logs p [StepOutcome.ok t none] =
      ⟨s, logs ++ [startingLog Agent.QUALITY_REVIEWER, errorLog Agent.QUALITY_REVIEWER], p⟩) ∧
    (determineNextAgent s = a →
      determineNextAgent (runStep a s logs p [StepOutcome.fail]).state = a) :=
  ⟨rfl, rfl, fun _ => rfl, fun h => h⟩

/-- Witness for C4: Invoker failure for the Concept-Explainer leaves
`explanation` unset, appends the error entry, and the selector still returns
the Concept-Explainer. -/
theorem claim_C4_witness :
    determineNextAgent afterPlanState = Agent.CONCEPT_EXPLAINER ∧
    (runStep Agent.CONCEPT_EXPLAINER afterPlanState [] false [StepOutcome.fail]).state =
      afterPlanState ∧
    (runStep Agent.CONCEPT_EXPLAINER afterPlanState [] false [StepOutcome.fail]).state.explanation
      = none ∧
    (runStep Agent.CONCEPT_EXPLAINER afterPlanState [] false [StepOutcome.fail]).logs =
      [startingLog Agent.CONCEPT_EXPLAINER, errorLog Agent.CONCEPT_EXPLAINER] ∧
    determineNextAgent
      (runStep Agent.CONCEPT_EXPLAINER afterPlanState [] false [StepOutcome.fail]).state =
      Agent.CONCEPT_EXPLAINER :=
  ⟨by decide, (claim_C4 Agent.CONCEPT_EXPLAINER afterPlanState [] false).2.1, rfl, rfl,
    (claim_C4 Agent.CONCEPT_EXPLAINER afterPlanState [] false).2.2.2 (by decide)⟩

/-- Claim C5: the submit control is rendered only while `showHumanPrompt` is
set, so submitting non-empty text while the session is not suspended changes
neither the session state nor the activity log (nor anything else of the
configuration). -/
theorem claim_C5 (c : Config) (t : String) (os : List StepOutcome)
    (ht : t ≠ "") (h : c.showHumanPrompt = false) :
    submitHumanInput c t os = c := by
  simp [submitHumanInput, h]

/-- Witness for C5 on the freshly mounted configuration. -/
theorem claim_C5_witness :
    ("guidance" : String) ≠ "" ∧ initConfig.showHumanPrompt = false ∧
    submitHumanInput initConfig "guidance" [] = initConfig :=
  ⟨by decide, rfl, claim_C5 initConfig "guidance" [] (by decide) rfl⟩

/-- Claim C6: with quiz present and answers missing the selector suspends for
the human with the student context hint; with the motivator message present
and a false reviewer verdict it suspends with the supervisor context hint. -/
theorem claim_C6 :
    (∀ s : SharedState, s.turnCount < s.maxTurns →
      truthy s.lessonPlan = true → truthy s.explanation = true →
      truthy s.quiz = true → truthy s.studentAnswers = false →
      determineNextAgent s = Agent.HUMAN_APPROVAL ∧ humanPromptHint s = studentHint) ∧
    (∀ s : SharedState, s.turnCount < s.maxTurns →
      truthy s.lessonPlan = true → truthy s.explanation = true →
      truthy s.quiz = true → truthy s.studentAnswers = true →
      truthy s.feedback = true → truthy s.motivatorMessage = true →
      s.reviewerApproved = some false →
      determineNextAgent s = Agent.HUMAN_APPROVAL ∧ humanPromptHint s = supervisorHint) := by
  constructor
  · intro s hT hlp hex hq hans
    refine ⟨determineNextAgent_student s hT hlp hex hq hans, ?_⟩
    simp [humanPromptHint, hq, hans]
  · intro s hT hlp hex hq hans hf hm hap
    refine ⟨determineNextAgent_supervisor s hT hlp hex hq hans hf hm hap, ?_⟩
    simp [humanPromptHint, hans]

/-- Witness for C6 at the two suspension states. -/
theorem claim_C6_witness :
    (determineNextAgent awaitStudentState = Agent.HUMAN_APPROVAL ∧
      humanPromptHint awaitStudentState = studentHint) ∧
    (determineNextAgent awaitSupervisorState = Agent.HUMAN_APPROVAL ∧
      humanPromptHint awaitSupervisorState = supervisorHint) :=
  ⟨claim_C6.1 awaitStudentState (by decide) (by decide) (by decide) (by decide) (by decide),
    claim_C6.2 awaitSupervisorState (by decide) (by decide) (by decide) (by decide) (by decide)
      (by decide) (by decide) rfl⟩

/-- Counterexample to C7 as stated: at a state with plan, explanation and quiz
set, answers unset, but `feedback` already set, the claim's premises hold and
submitting "B, A, C" does write the answers, yet the selector on the updated
state returns `MOTIVATOR`, not the Feedback-Analyzer (rule 6 requires
`feedback` unset). -/
theorem claim_C7_counterexample :
    feedbackEarlyState.turnCount < feedbackEarlyState.maxTurns ∧
    truthy feedbackEarlyState.lessonPlan = true ∧
    truthy feedbackEarlyState.explanation = true ∧
    truthy feedbackEarlyState.quiz = true ∧
    truthy feedbackEarlyState.studentAnswers = false ∧
    determineNextAgent feedbackEarlyState = Agent.HUMAN_APPROVAL ∧
    (humanUpdatedState feedbackEarlyState "B, A, C").studentAnswers = some "B, A, C" ∧
    determineNextAgent (humanUpdatedState feedbackEarlyState "B, A, C") = Agent.MOTIVATOR ∧
    ¬ determineNextAgent (humanUpdatedState feedbackEarlyState "B, A, C") =
        Agent.FEEDBACK_ANALYZER := by
  decide

/-- Claim C7 as amended: additionally require `feedback` unset.  Then the
selector suspends with the student hint, submitting any non-empty text `t`
routes it into `studentAnswers` exactly, and the selector on the updated state
returns the Feedback-Analyzer; the final conjunct shows the whole path through
`submitHumanInput` on a suspended configuration. -/
theorem claim_C7 (s : SharedState) (hT : s.turnCount < s.maxTurns)
    (hlp : truthy s.lessonPlan = true) (hex : truthy s.explanation = true)
    (hq : truthy s.quiz = true) (hans : truthy s.studentAnswers = false)
    (hf : truthy s.feedback = false) :
    determineNextAgent s = Agent.HUMAN_APPROVAL ∧
    humanPromptHint s = studentHint ∧
    (∀ t : String, t ≠ "" →
      (humanUpdatedState s t).studentAnswers = some t ∧
      determineNextAgent (humanUpdatedState s t) = Agent.FEEDBACK_ANALYZER) ∧
    (∀ (logs : List LogEntry) (os : List StepOutcome) (t : String), t ≠ "" →
      submitHumanInput ⟨s, logs, true⟩ t os =
        runStep (determineNextAgent (humanUpdatedState s t)) (humanUpdatedState s t)
          (logs ++ [humanSubmitLog s t]) false os) := by
  have hcond : (truthy s.quiz && !truthy s.studentAnswers) = true := by simp [hq, hans]
  have hupd : ∀ t : String, humanUpdatedState s t = { s with studentAnswers := some t } := by
    intro t
    unfold humanUpdatedState
    rw [if_pos hcond]
  refine ⟨determineNextAgent_student s hT hlp hex hq hans, by simp [humanPromptHint, hq, hans],
    ?_, ?_⟩
  · intro t ht
    rw [hupd t]
    exact ⟨rfl, determineNextAgent_feedback _ hT hlp hex hq (truthy_some ht) hf⟩
  · intro logs os t ht
    have hne : (t == "") = false := by simp [ht]
    simp only [submitHumanInput, handleHumanSubmit]
    simp [hne]

/-- Witness for the amended C7 at the student suspension state with the
answer text of end-to-end scenario 2. -/
theorem claim_C7_witness :
    determineNextAgent awaitStudentState = Agent.HUMAN_APPROVAL ∧
    humanPromptHint awaitStudentState = studentHint ∧
    (humanUpdatedState awaitStudentState "B, A, C").studentAnswers = some "B, A, C" ∧
    determineNextAgent (humanUpdatedState awaitStudentState "B, A, C") =
      Agent.FEEDBACK_ANALYZER := by
  obtain ⟨h1, h2, h3, _⟩ :=
    claim_C7 awaitStudentState (by decide) (by decide) (by decide) (by decide) (by decide)
      (by decide)
  obtain ⟨h4, h5⟩ := h3 "B, A, C" (by decide)
  exact ⟨h1, h2, h4, h5⟩

/-- Claim C8: each producing agent writes exactly its one designated field
(plus the `turnCount` increment), and a successful Quality-Reviewer turn
writes `reviewerApproved`, `reviewerComments` and `confidence` together in
one state update; the full record equations show that no other field
changes. -/
theorem claim_C8 (out : String) (pr : Option Review) (r : Review) (s : SharedState) :
    applyAgentOutput Agent.CURRICULUM_PLANNER out pr s =
      some { s with lessonPlan := some out, turnCount := s.turnCount + 1 } ∧
    applyAgentOutput Agent.CONCEPT_EXPLAINER out pr s =
      some { s with explanation := some out, turnCount := s.turnCount + 1 } ∧
    applyAgentOutput Agent.QUIZ_GENERATOR out pr s =
      some { s with quiz := some out, turnCount := s.turnCount + 1 } ∧
    applyAgentOutput Agent.FEEDBACK_ANALYZER out pr s =
      some { s with feedback := some out, turnCount := s.turnCount + 1 } ∧
    applyAgentOutput Agent.MOTIVATOR out pr s =
      some { s with motivatorMessage := some out, turnCount := s.turnCount + 1 } ∧
    applyAgentOutput Agent.QUALITY_REVIEWER out (some r) s =
      some { s with reviewerApproved := some r.approved, reviewerComments := some r.comments,
                    confidence := r.confidence, turnCount := s.turnCount + 1 } :=
  ⟨rfl, rfl, rfl, rfl, rfl, rfl⟩

/-- Claim C9: on the supervisor branch (quiz unset or answers already set), a
suspended submit leaves every field of the session state exactly unchanged —
only the feedback log entry is appended — and the loop resumes with the
selector re-evaluated on the identical state. -/
theorem claim_C9 (c : Config) (t : String) (os : List StepOutcome)
    (ht : t ≠ "")
    (hbranch : (truthy c.state.quiz && !truthy c.state.studentAnswers) = false) :
    humanUpdatedState c.state t = c.state ∧
    handleHumanSubmit c t os =
      runStep (determineNextAgent c.state) c.state
        (c.logs ++ [humanSubmitLog c.state t]) false os := by
  have hu : humanUpdatedState c.state t = c.state := by
    unfold humanUpdatedState
    rw [if_neg (by simp [hbranch])]
  refine ⟨hu, ?_⟩
  simp only [handleHumanSubmit, hu]
  rw [if_neg (by simp [ht])]

/-- Witness for C9 at the supervisor suspension configuration. -/
theorem claim_C9_witness :
    humanUpdatedState supervisorConfig.state "Loosen the quiz difficulty" =
      supervisorConfig.state ∧
    handleHumanSubmit supervisorConfig "Loosen the quiz difficulty" [] =
      runStep (determineNextAgent supervisorConfig.state) supervisorConfig.state
        (supervisorConfig.logs ++
          [humanSubmitLog supervisorConfig.state "Loosen the quiz difficulty"]) false [] :=
  claim_C9 supervisorConfig "Loosen the quiz difficulty" [] (by decide) (by decide)

/-- Claim C10: for the agents without a state-update case — `HUMAN_APPROVAL`,
`SUPERVISOR` and `END` — a turn still consumes a real Invoker outcome (the
`runStep` equation on a failing call shows the call is made and can fail), and
a successful one increments `turnCount` by exactly 1 while leaving every
artifact and reviewer field unchanged. -/
theorem claim_C10 (out : String) (pr : Option Review) (s : SharedState)
    (logs : List LogEntry) (p : Bool) (os : List StepOutcome) :
    applyAgentOutput Agent.HUMAN_APPROVAL out pr s =
      some { s with turnCount := s.turnCount + 1 } ∧
    applyAgentOutput Agent.SUPERVISOR out pr s =
      some { s with turnCount := s.turnCount + 1 } ∧
    applyAgentOutput Agent.END out pr s =
      some { s with turnCount := s.turnCount + 1 } ∧
    runStep Agent.END s logs p (StepOutcome.fail :: os) =
      ⟨s, logs ++ [startingLog Agent.END, errorLog Agent.END], p⟩ :=
  ⟨rfl, rfl, rfl, rfl⟩

/-- Selector rule 3: lesson plan present, explanation missing. -/
theorem determineNextAgent_explainer (s : SharedState) (hT : s.turnCount < s.maxTurns)
    (hlp : truthy s.lessonPlan = true) (hex : truthy s.explanation = false) :
    determineNextAgent s = Agent.CONCEPT_EXPLAINER := by
  unfold determineNextAgent
  rw [if_neg (by omega), if_neg (by simp [hlp]), if_pos hex]

/-- Selector rule 4: plan and explanation present, quiz missing. -/
theorem determineNextAgent_quizgen (s : SharedState) (hT : s.turnCount < s.maxTurns)
    (hlp : truthy s.lessonPlan = true) (hex : truthy s.explanation = true)
    (hq : truthy s.quiz = false) :
    determineNextAgent s = Agent.QUIZ_GENERATOR := by
  unfold determineNextAgent
  rw [if_neg (by omega), if_neg (by simp [hlp]), if_neg (by simp [hex]), if_pos hq]

/-- A successful fold of an agent output increments `turnCount` by exactly 1
and leaves `maxTurns` unchanged. -/
theorem applyAgentOutput_counts {a : Agent} {out : String} {pr : Option Review}
    {s u : SharedState} (h : applyAgentOutput a out pr s = some u) :
    u.turnCount = s.turnCount + 1 ∧ u.maxTurns = s.maxTurns := by
  cases a <;> cases pr <;> simp [applyAgentOutput] at h <;> (subst h; exact ⟨rfl, rfl⟩)

/-- Whenever the selector returns anything other than `END`, the turn cap has
not been reached (contrapositive of rule 1). -/
theorem turn_lt_of_ne_end {s : SharedState} (h : determineNextAgent s ≠ Agent.END) :
    s.turnCount < s.maxTurns := by
  by_contra hc
  exact h (by unfold determineNextAgent; rw [if_pos (Nat.le_of_not_lt hc)])

/-- Unfolding equation of `runStep` on a call whose output fold fails. -/
theorem runStep_ok_none (a : Agent) (t : String) (pr : Option Review) (s : SharedState)
    (logs : List LogEntry) (p : Bool) (rest : List StepOutcome)
    (h : applyAgentOutput a (callAgentResult t) pr s = none) :
    runStep a s logs p (StepOutcome.ok t pr :: rest) =
      ⟨s, logs ++ [startingLog a, errorLog a], p⟩ := by
  simp only [runStep]
  rw [h]

/-- Unfolding equation of `runStep` on a call whose output fold succeeds. -/
theorem runStep_ok_some (a : Agent) (t : String) (pr : Option Review) (s u : SharedState)
    (logs : List LogEntry) (p : Bool) (rest : List StepOutcome)
    (h : applyAgentOutput a (callAgentResult t) pr s = some u) :
    runStep a s logs p (StepOutcome.ok t pr :: rest) =
      (if determineNextAgent u = Agent.HUMAN_APPROVAL then
        ⟨u, logs ++ [startingLog a, outputLog a (callAgentResult t)] ++ [awaitLog], true⟩
      else if determineNextAgent u ≠ Agent.END then
        runStep (determineNextAgent u) u
          (logs ++ [startingLog a, outputLog a (callAgentResult t)]) p rest
      else ⟨u, logs ++ [startingLog a, outputLog a (callAgentResult t)] ++ [endLog], p⟩) := by
  simp only [runStep]
  rw [h]

/-- Turn-cap safety of one chained `runStep` call: started below the cap, the
chain never pushes `turnCount` past `maxTurns`, it never changes `maxTurns`,
and it only raises the human prompt (beyond a stale incoming one) with the
counter strictly below the cap. -/
theorem runStep_bounds (os : List StepOutcome) :
    ∀ (a : Agent) (s : SharedState) (logs : List LogEntry) (p : Bool),
      s.turnCount < s.maxTurns →
      (runStep a s logs p os).state.maxTurns = s.maxTurns ∧
      (runStep a s logs p os).state.turnCount ≤ s.maxTurns ∧
      ((runStep a s logs p os).showHumanPrompt = true →
        p = true ∨ (runStep a s logs p os).state.turnCount < s.maxTurns) := by
  induction os with
  | nil =>
    intro a s logs p h
    exact ⟨rfl, Nat.le_of_lt h, fun hp => Or.inl hp⟩
  | cons o rest ih =>
    intro a s logs p h
    cases o with
    | fail => exact ⟨rfl, Nat.le_of_lt h, fun hp => Or.inl hp⟩
    | ok t pr =>
      cases happ : applyAgentOutput a (callAgentResult t) pr s with
      | none =>
        rw [runStep_ok_none a t pr s logs p rest happ]
        exact ⟨rfl, Nat.le_of_lt h, fun hp => Or.inl hp⟩
      | some u =>
        obtain ⟨hcnt, hmax⟩ := applyAgentOutput_counts happ
        rw [runStep_ok_some a t pr s u logs p rest happ]
        by_cases h1 : determineNextAgent u = Agent.HUMAN_APPROVAL
        · rw [if_pos h1]
          have hlt : u.turnCount < u.maxTurns := turn_lt_of_ne_end (by simp [h1])
          refine ⟨hmax, ?_, fun _ => Or.inr ?_⟩
          · show u.turnCount ≤ s.maxTurns
            omega
          · show u.turnCount < s.maxTurns
            omega
        · rw [if_neg h1]
          by_cases h2 : determineNextAgent u = Agent.END
          · rw [if_neg (not_not_intro h2)]
            refine ⟨hmax, ?_, fun hp => Or.inl hp⟩
            show u.turnCount ≤ s.maxTurns
            omega
          · rw [if_pos h2]
            have hlt : u.turnCount < u.maxTurns := turn_lt_of_ne_end h2
            obtain ⟨m1, m2, m3⟩ :=
              ih (determineNextAgent u) u
                (logs ++ [startingLog a, outputLog a (callAgentResult t)]) p hlt
            refine ⟨m1.trans hmax, by omega, fun hp => ?_⟩
            rcases m3 hp with hstale | hnew
            · exact Or.inl hstale
            · exact Or.inr (by omega)

/-- A fresh session's automatic chain stops (suspending for the student, or
earlier on failure or a pending call) after at most three successful turns:
planner, explainer, quiz generator.  In particular its turn counter stays far
below the cap of 15. -/
theorem runStep_start_bound (ti di : String) (os : List StepOutcome) (logs : List LogEntry)
    (p : Bool) :
    (runStep Agent.CURRICULUM_PLANNER { INITIAL_STATE with topic := ti, difficulty := di }
      logs p os).state.turnCount ≤ 3 ∧
    (runStep Agent.CURRICULUM_PLANNER { INITIAL_STATE with topic := ti, difficulty := di }
      logs p os).state.maxTurns = 15 := by
  cases os with
  | nil => exact ⟨(by decide : (0 : Nat) ≤ 3), rfl⟩
  | cons o1 os1 =>
    cases o1 with
    | fail => exact ⟨(by decide : (0 : Nat) ≤ 3), rfl⟩
    | ok t1 pr1 =>
      rw [runStep_ok_some Agent.CURRICULUM_PLANNER t1 pr1
        { INITIAL_STATE with topic := ti, difficulty := di } (stage1 ti di t1) logs p os1 rfl]
      have hsel1 : determineNextAgent (stage1 ti di t1) = Agent.CONCEPT_EXPLAINER :=
        determineNextAgent_explainer (stage1 ti di t1) (by decide : (1 : Nat) < 15)
          (truthy_callAgentResult t1) rfl
      rw [hsel1, if_neg (by decide), if_pos (by decide)]
      generalize logs ++ [startingLog Agent.CURRICULUM_PLANNER,
        outputLog Agent.CURRICULUM_PLANNER (callAgentResult t1)] = logs1
      cases os1 with
      | nil => exact ⟨(by decide : (1 : Nat) ≤ 3), rfl⟩
      | cons o2 os2 =>
        cases o2 with
        | fail => exact ⟨(by decide : (1 : Nat) ≤ 3), rfl⟩
        | ok t2 pr2 =>
          rw [runStep_ok_some Agent.CONCEPT_EXPLAINER t2 pr2 (stage1 ti di t1)
            (stage2 ti di t1 t2) logs1 p os2 rfl]
          have hsel2 : determineNextAgent (stage2 ti di t1 t2) = Agent.QUIZ_GENERATOR :=
            determineNextAgent_quizgen (stage2 ti di t1 t2) (by decide : (2 : Nat) < 15)
              (truthy_callAgentResult t1) (truthy_callAgentResult t2) rfl
          rw [hsel2, if_neg (by decide), if_pos (by decide)]
          generalize logs1 ++ [startingLog Agent.CONCEPT_EXPLAINER,
            outputLog Agent.CONCEPT_EXPLAINER (callAgentResult t2)] = logs2
          cases os2 with
          | nil => exact ⟨(by decide : (2 : Nat) ≤ 3), rfl⟩
          | cons o3 os3 =>
            cases o3 with
            | fail => exact ⟨(by decide : (2 : Nat) ≤ 3), rfl⟩
            | ok t3 pr3 =>
              rw [runStep_ok_some Agent.QUIZ_GENERATOR t3 pr3 (stage2 ti di t1 t2)
                (stage3 ti di t1 t2 t3) logs2 p os3 rfl]
              have hsel3 : determineNextAgent (stage3 ti di t1 t2 t3) = Agent.HUMAN_APPROVAL :=
                determineNextAgent_student (stage3 ti di t1 t2 t3) (by decide : (3 : Nat) < 15)
                  (truthy_callAgentResult t1) (truthy_callAgentResult t2)
                  (truthy_callAgentResult t3) rfl
              rw [hsel3, if_pos rfl]
              exact ⟨(by decide : (3 : Nat) ≤ 3), rfl⟩

/-- Every configuration reachable from a fresh mount satisfies the safety
property: the turn counter never exceeds the cap, and suspension only happens
strictly below the cap. -/
theorem reachable_inv {c : Config} (h : Reachable c) : ConfigInv c := by
  induction h with
  | init => exact ⟨by decide, by decide⟩
  | @step c e hr ih =>
    cases e with
    | start ti di os =>
      show ConfigInv (startSession c ti di os)
      unfold startSession
      by_cases hti : (ti == "") = true
      · rw [if_pos hti]
        exact ih
      · rw [if_neg hti]
        obtain ⟨h1, h2⟩ := runStep_start_bound ti di os [initLog ti di] c.showHumanPrompt
        refine ⟨?_, fun _ => ?_⟩
        · rw [h2]
          exact h1.trans (by decide)
        · rw [h2]
          exact lt_of_le_of_lt h1 (by decide)
    | submit t os =>
      show ConfigInv (submitHumanInput c t os)
      unfold submitHumanInput
      by_cases hp : c.showHumanPrompt = true
      · rw [if_pos hp]
        unfold handleHumanSubmit
        by_cases ht : (t == "") = true
        · rw [if_pos ht]
          exact ih
        · rw [if_neg ht]
          show ConfigInv (runStep (determineNextAgent (humanUpdatedState c.state t))
            (humanUpdatedState c.state t) (c.logs ++ [humanSubmitLog c.state t]) false os)
          have hlt : c.state.turnCount < c.state.maxTurns := ih.2 hp
          have hcounts : (humanUpdatedState c.state t).turnCount = c.state.turnCount ∧
              (humanUpdatedState c.state t).maxTurns = c.state.maxTurns := by
            unfold humanUpdatedState
            split
            · exact ⟨rfl, rfl⟩
            · exact ⟨rfl, rfl⟩
          obtain ⟨hc1, hc2⟩ := hcounts
          obtain ⟨m1, m2, m3⟩ :=
            runStep_bounds os (determineNextAgent (humanUpdatedState c.state t))
              (humanUpdatedState c.state t) (c.logs ++ [humanSubmitLog c.state t]) false
              (by omega)
          refine ⟨?_, fun hpr => ?_⟩
          · rw [m1]
            exact m2.trans (le_of_eq rfl)
          · rcases m3 hpr with hstale | hlt2
            · exact absurd hstale (by simp)
            · rw [m1]
              exact hlt2
      · rw [if_neg hp]
        exact ih

/-- Claim C3: a successful turn increments `turnCount` by exactly 1 (first
conjunct, over the state fold of `runStep`), and in every configuration
reachable from a fresh session via the automatic loop, `startSession` and
`submitHumanInput`, `turnCount` never exceeds `maxTurns` (second conjunct). -/
theorem claim_C3 :
    (∀ (a : Agent) (out : String) (pr : Option Review) (s u : SharedState),
      applyAgentOutput a out pr s = some u → u.turnCount = s.turnCount + 1) ∧
    (∀ c : Config, Reachable c → c.state.turnCount ≤ c.state.maxTurns) := by
  constructor
  · intro a out pr s u h
    exact (applyAgentOutput_counts h).1
  · intro c h
    exact (reachable_inv h).1

/-- Witness for C3: the Curriculum-Planner fold on the fresh state yields
`turnCount = 0 + 1`, and the configuration reached by starting a session that
completes one planner turn respects the cap. -/
theorem claim_C3_witness :
    applyAgentOutput Agent.CURRICULUM_PLANNER "plan" none INITIAL_STATE = some planStep ∧
    planStep.turnCount = INITIAL_STATE.turnCount + 1 ∧
    (applyEvent initConfig (Event.start "Photosynthesis" "Beginner"
      [StepOutcome.ok "the plan" none])).state.turnCount ≤
      (applyEvent initConfig (Event.start "Photosynthesis" "Beginner"
        [StepOutcome.ok "the plan" none])).state.maxTurns :=
  ⟨rfl, claim_C3.1 Agent.CURRICULUM_PLANNER "plan" none INITIAL_STATE planStep rfl,
    claim_C3.2 _ (Reachable.step (Event.start "Photosynthesis" "Beginner"
      [StepOutcome.ok "the plan" none]) Reachable.init)⟩
